import Mathlib

/-!
Shallow embedding of the orchestration core of `ignite-hq/cli`'s
`network chain init` and `network campaign update` commands
(`src/ignite/cmd/network_chain_init.go`, `src/ignite/cmd/network_campaign_update.go`).

External collaborators (network builder, account registry, remote network,
chain workspace, coin parser) are modelled as an explicit environment of
fallible calls; each handler returns the ordered trace of collaborator
calls it performed together with its Go-style result (`none` = nil error).
-/

/-- Go `error` values relevant to the two workflows. -/
inductive GoError where
  | invalidFormat (s : String)
  | invalidAmount (s : String)
  | accountNotFound (name : String)
  | noFieldsProvided
  | incompleteInput (label : String)
  | genesisParse (msg : String)
  | promptFailure (msg : String)
  | remoteFailure (msg : String)
deriving DecidableEq, Repr

/-- A denom/amount pair, as in `sdk.Coin`. -/
structure Coin where
  denom : String
  amount : Nat
deriving DecidableEq, Repr

/-- Remote campaign record (name, metadata, total supply). -/
structure Campaign where
  name : String
  metadata : String
  totalSupply : List Coin
deriving DecidableEq, Repr

/-- Remote chain-launch record; only its identity matters to the handler. -/
structure ChainLaunch where
  id : Nat
deriving DecidableEq, Repr

/-- Parsed genesis artifact; the handler reads only the stake denomination. -/
structure Genesis where
  stakeDenom : String
deriving DecidableEq, Repr

instance {ε α : Type} [DecidableEq ε] [DecidableEq α] : DecidableEq (Except ε α)
  | .error e1, .error e2 =>
    if h : e1 = e2 then isTrue (by rw [h]) else isFalse (fun hc => h (Except.error.inj hc))
  | .ok a1, .ok a2 =>
    if h : a1 = a2 then isTrue (by rw [h]) else isFalse (fun hc => h (Except.ok.inj hc))
  | .error _, .ok _ => isFalse (fun hc => Except.noConfusion hc)
  | .ok _, .error _ => isFalse (fun hc => Except.noConfusion hc)

/-- Modelled from the spec: `network.ParseID` (the Identifier Codec, absent
from src/) parses a string of decimal digits into a numeric identifier and
fails with an invalid-format error on any other input. -/
def ParseID (s : String) : Except GoError Nat :=
  if s ≠ "" ∧ s.data.all Char.isDigit then
    .ok (s.data.foldl (fun n c => n * 10 + (c.toNat - 48)) 0)
  else .error (.invalidFormat s)

/-- `chain.Validator`, the validator profile assembled by `askValidatorInfo`. -/
structure Validator where
  name : String
  website : String
  details : String
  moniker : String
  identity : String
  securityContact : String
  minSelfDelegation : String
  gasPrices : String
  stakingAmount : String
  commissionRate : String
  commissionMaxRate : String
  commissionMaxChangeRate : String
deriving DecidableEq, Repr

/-- A `cliquiz` question descriptor: label, optional default answer, and
whether a non-empty answer is required. -/
structure Question where
  label : String
  defaultAnswer : Option String
  required : Bool
deriving DecidableEq, Repr

/-- Modelled from the spec: how one interactive question resolves — the
user's raw input if non-empty, otherwise the question's default (if any). -/
def resolve (answers : String → String) (q : Question) : String :=
  let input := answers q.label
  if input = "" then q.defaultAnswer.getD "" else input

/-- Modelled from the spec: `cliquiz.Ask` (absent from src/) asks the
questions in order, returning the resolved answers; a required question
whose resolved answer is empty fails with `IncompleteInput`. -/
def ask (answers : String → String) : List Question → Except GoError (List String)
  | [] => .ok []
  | q :: qs =>
    if q.required ∧ resolve answers q = "" then .error (GoError.incompleteInput q.label)
    else
      match ask answers qs with
      | .error e => .error e
      | .ok as => .ok (resolve answers q :: as)

/-- The flag values consumed by `networkChainInitHandler`. -/
structure InitFlags where
  validatorAccount : String
  website : String
  details : String
  securityContact : String
  moniker : String
  identity : String
  selfDelegation : String
  gasPrice : String
  yes : Bool
deriving DecidableEq, Repr

/-- The fixed question list built by `askValidatorInfo`
(`network_chain_init.go:167-189`). -/
def validatorQuestions : List Question :=
  [⟨"Staking amount", some "95000000stake", true⟩,
   ⟨"Commission rate", some "0.10", true⟩,
   ⟨"Commission max rate", some "0.20", true⟩,
   ⟨"Commission max change rate", some "0.01", true⟩]

/-- `askValidatorInfo` (`network_chain_init.go:140-190`): builds the
validator from flags, derives the gas price from the stake denomination
when the flag is empty, then asks the four interactive questions whose
answers fill the staking/commission fields. -/
def askValidatorInfo (flags : InitFlags) (stakeDenom : String)
    (answers : String → String) : Except GoError Validator :=
  let gasPrice := if flags.gasPrice = "" then "0" ++ stakeDenom else flags.gasPrice
  let v : Validator :=
    { name := flags.validatorAccount
      website := flags.website
      details := flags.details
      moniker := flags.moniker
      identity := flags.identity
      securityContact := flags.securityContact
      minSelfDelegation := flags.selfDelegation
      gasPrices := gasPrice
      stakingAmount := ""
      commissionRate := ""
      commissionMaxRate := ""
      commissionMaxChangeRate := "" }
  match ask answers validatorQuestions with
  | .error e => .error e
  | .ok as =>
    .ok { v with
      stakingAmount := as.getD 0 ""
      commissionRate := as.getD 1 ""
      commissionMaxRate := as.getD 2 ""
      commissionMaxChangeRate := as.getD 3 "" }

/-- A campaign-update proposition (`network.Prop` constructors). -/
inductive CProp where
  | withCampaignName (name : String)
  | withCampaignMetadata (metadata : String)
  | withCampaignTotalSupply (totalSupply : List Coin)
deriving DecidableEq, Repr

/-- The proposition-list construction of `networkCampaignUpdateHandler`
(`network_campaign_update.go:73-83`): start from the empty slice and append
one proposition per non-empty field, in the order name, metadata,
total-supply. -/
def buildProps (campaignName metadata : String) (totalSupply : List Coin) : List CProp :=
  let proposals : List CProp := []
  let proposals :=
    if campaignName ≠ "" then proposals ++ [CProp.withCampaignName campaignName]
    else proposals
  let proposals :=
    if metadata ≠ "" then proposals ++ [CProp.withCampaignMetadata metadata]
    else proposals
  let proposals :=
    if ¬ totalSupply.isEmpty then proposals ++ [CProp.withCampaignTotalSupply totalSupply]
    else proposals
  proposals

/-- The proposition list exactly as the spec words it: one entry per field
supplied non-empty, no others, in the fixed order name, metadata,
total-supply. Used only to compare against `buildProps`. -/
def specPropositionList (campaignName metadata : String) (totalSupply : List Coin) :
    List CProp :=
  (if campaignName ≠ "" then [CProp.withCampaignName campaignName] else []) ++
  (if metadata ≠ "" then [CProp.withCampaignMetadata metadata] else []) ++
  (if ¬ totalSupply.isEmpty then [CProp.withCampaignTotalSupply totalSupply] else [])

/-- Events recorded by the campaign-update handler, one per collaborator
call or print, in execution order. -/
inductive CUEvent where
  | parseCoinsCall (s : String)
  | buildNetwork
  | parseIDCall (s : String)
  | networkCall
  | updateCampaign (id : Nat) (props : List CProp)
  | fetchCampaign (id : Nat)
  | marshal (c : Campaign)
deriving DecidableEq, Repr

/-- External collaborators of `networkCampaignUpdateHandler`. -/
structure CUEnv where
  parseCoins : String → Except GoError (List Coin)
  newNetworkBuilder : Except GoError Unit
  network : Except GoError Unit
  updateCampaign : Nat → List CProp → Except GoError Unit
  fetchCampaign : Nat → Except GoError Campaign
  marshal : Campaign → Except GoError String

/-- The flag values consumed by `networkCampaignUpdateHandler`. -/
structure CampaignFlags where
  name : String
  metadata : String
  totalSupply : String
deriving DecidableEq, Repr

/-- Runs one fallible collaborator call: on error the handler stops with
that error; on success the recorded trace grows and the continuation runs. -/
def run {ε α : Type} (tr : List ε) (ev : ε) (r : Except GoError α)
    (k : List ε → α → List ε × Option GoError) : List ε × Option GoError :=
  match r with
  | .error e => (tr ++ [ev], some e)
  | .ok a => k (tr ++ [ev]) a

/-- `networkCampaignUpdateHandler` (`network_campaign_update.go:36-102`):
parse the total-supply flag, build the network builder, parse the campaign
ID, reject when all three fields are empty, then build the propositions,
submit them, re-fetch the campaign and marshal it for display. -/
def networkCampaignUpdateHandler (env : CUEnv) (flags : CampaignFlags) (arg : String) :
    List CUEvent × Option GoError :=
  run [] (.parseCoinsCall flags.totalSupply) (env.parseCoins flags.totalSupply)
    fun tr totalSupply =>
  run tr .buildNetwork env.newNetworkBuilder fun tr _ =>
  run tr (.parseIDCall arg) (ParseID arg) fun tr campaignID =>
  if flags.name = "" ∧ flags.metadata = "" ∧ totalSupply.isEmpty = true then
    (tr, some GoError.noFieldsProvided)
  else
    run tr .networkCall env.network fun tr _ =>
    let proposals := buildProps flags.name flags.metadata totalSupply
    run tr (.updateCampaign campaignID proposals) (env.updateCampaign campaignID proposals)
      fun tr _ =>
    run tr (.fetchCampaign campaignID) (env.fetchCampaign campaignID) fun tr campaign =>
    run tr (.marshal campaign) (env.marshal campaign) fun tr _info =>
    (tr, none)

/-- Events recorded by the chain-init handler, one per collaborator call or
print, in execution order. -/
inductive CIEvent where
  | buildNetwork
  | parseLaunchID (s : String)
  | getAccount (name : String)
  | checkHome (id : Nat)
  | promptOverwrite
  | printDecline
  | networkCall
  | fetchChainLaunch (id : Nat)
  | newChain
  | chainInitCall
  | getGenesisPath
  | parseGenesisCall
  | askValidator
  | initAccountCall (v : Validator) (account : String)
deriving DecidableEq, Repr

/-- External collaborators of `networkChainInitHandler`. -/
structure CIEnv where
  newNetworkBuilder : Except GoError Unit
  getByName : String → Except GoError Unit
  isChainHomeExist : Nat → Except GoError (String × Bool)
  promptRun : Except GoError String
  network : Except GoError Unit
  chainLaunch : Nat → Except GoError ChainLaunch
  mkChain : ChainLaunch → Except GoError Unit
  chainInit : Except GoError Unit
  genesisPath : Except GoError String
  parseGenesis : String → Except GoError Genesis
  answers : String → String
  initAccount : Validator → String → Except GoError String

/-- The tail of `networkChainInitHandler` after the home-directory check
(`network_chain_init.go:93-137`): fetch the chain launch, build and
initialize the chain, parse the genesis, collect validator info, and
generate the gentx. -/
def afterHomeCheck (env : CIEnv) (flags : InitFlags) (launchID : Nat)
    (tr : List CIEvent) : List CIEvent × Option GoError :=
  run tr .networkCall env.network fun tr _ =>
  run tr (.fetchChainLaunch launchID) (env.chainLaunch launchID) fun tr launch =>
  run tr .newChain (env.mkChain launch) fun tr _ =>
  run tr .chainInitCall env.chainInit fun tr _ =>
  run tr .getGenesisPath env.genesisPath fun tr gpath =>
  run tr .parseGenesisCall (env.parseGenesis gpath) fun tr genesis =>
  run tr .askValidator (askValidatorInfo flags genesis.stakeDenom env.answers)
    fun tr v =>
  run tr (.initAccountCall v flags.validatorAccount)
    (env.initAccount v flags.validatorAccount) fun tr _gentxPath =>
  (tr, none)

/-- `networkChainInitHandler` (`network_chain_init.go:53-138`): build the
network builder, parse the launch ID, check the validator account, check
whether the chain home exists; when it exists and the yes-flag is unset,
run the overwrite confirmation — any prompt error prints the decline
message and returns nil — then continue with `afterHomeCheck`. -/
def networkChainInitHandler (env : CIEnv) (flags : InitFlags) (arg : String) :
    List CIEvent × Option GoError :=
  run [] .buildNetwork env.newNetworkBuilder fun tr _ =>
  run tr (.parseLaunchID arg) (ParseID arg) fun tr launchID =>
  run tr (.getAccount flags.validatorAccount) (env.getByName flags.validatorAccount)
    fun tr _ =>
  run tr (.checkHome launchID) (env.isChainHomeExist launchID) fun tr home =>
  if !flags.yes && home.2 then
    match env.promptRun with
    | .error _ => (tr ++ [.promptOverwrite, .printDecline], none)
    | .ok _ => afterHomeCheck env flags launchID (tr ++ [.promptOverwrite])
  else afterHomeCheck env flags launchID tr

/-- Flag values matching the command's defaults, with account "alice". -/
def baseFlags : InitFlags :=
  { validatorAccount := "alice", website := "", details := "", securityContact := "",
    moniker := "", identity := "", selfDelegation := "", gasPrice := "", yes := false }

/-- A user who answers every interactive question with empty input. -/
def emptyAnswers : String → String := fun _ => ""

/-- The validator profile produced from `baseFlags`, stake denomination
"stake" and all-empty interactive input (every default applies). -/
def vDefault : Validator :=
  { name := "alice", website := "", details := "", moniker := "", identity := "",
    securityContact := "", minSelfDelegation := "", gasPrices := "0stake",
    stakingAmount := "95000000stake", commissionRate := "0.10",
    commissionMaxRate := "0.20", commissionMaxChangeRate := "0.01" }

theorem ask_ok_head (answers : String → String) (q : Question) (qs : List Question)
    (as : List String) (h : ask answers (q :: qs) = .ok as) (hreq : q.required = true) :
    as.getD 0 "" ≠ "" := by
  unfold ask at h
  by_cases hc : (q.required ∧ resolve answers q = "")
  · simp only [if_pos hc] at h
    cases h
  · simp only [if_neg hc] at h
    cases hq : ask answers qs with
    | error e => rw [hq] at h; cases h
    | ok as2 =>
      rw [hq] at h
      cases h
      intro hempty
      exact hc ⟨hreq, by simpa using hempty⟩

/-- C1 (counterexample): the staking-amount question is created with the
default answer "95000000stake", so the user does receive a pre-filled
value; with all-empty interactive input the flow returns a profile whose
staking amount is that default rather than failing. -/
theorem c1_staking_default_counterexample :
    (validatorQuestions.map Question.defaultAnswer)[0]? = some (some "95000000stake") ∧
    (validatorQuestions.map Question.defaultAnswer)[0]? ≠ some none ∧
    (askValidatorInfo baseFlags "stake" emptyAnswers).toOption.map Validator.stakingAmount
      = some "95000000stake" := by
  refine ⟨rfl, by decide, rfl⟩

/-- C1 (amended): the staking-amount question is asked with the pre-filled
default answer "95000000stake" and is marked required, and the flow only
returns a validator profile whose staking amount is non-empty. -/
theorem c1_staking_required_amended :
    validatorQuestions[0]? = some ⟨"Staking amount", some "95000000stake", true⟩ ∧
    ∀ flags stakeDenom answers v,
      askValidatorInfo flags stakeDenom answers = .ok v → v.stakingAmount ≠ "" := by
  refine ⟨rfl, ?_⟩
  intro flags sd answers v h
  unfold askValidatorInfo at h
  cases hq : ask answers validatorQuestions with
  | error e => rw [hq] at h; cases h
  | ok as =>
    rw [hq] at h
    cases h
    simpa using ask_ok_head answers _ _ as hq rfl

/-- C1 (witness): at `baseFlags`, denomination "stake" and all-empty user
input the flow returns `vDefault`, whose staking amount is non-empty. -/
theorem c1_staking_required_witness :
    askValidatorInfo baseFlags "stake" emptyAnswers = .ok vDefault ∧
    vDefault.stakingAmount ≠ "" :=
  ⟨by decide,
   c1_staking_required_amended.2 baseFlags "stake" emptyAnswers vDefault (by decide)⟩

/-- C4: the proposition list built by the campaign-update handler equals
the spec's list — exactly one proposition per non-empty supplied field, no
others, in the fixed order name, metadata, total-supply. -/
theorem c4_proposition_order (campaignName metadata : String) (totalSupply : List Coin) :
    buildProps campaignName metadata totalSupply =
      specPropositionList campaignName metadata totalSupply := by
  unfold buildProps specPropositionList
  by_cases h1 : campaignName = "" <;> by_cases h2 : metadata = "" <;>
    by_cases h3 : totalSupply.isEmpty <;> simp [h1, h2, h3]

/-- C8: the gas price is never among the interactive questions (the labels
are exactly the four staking/commission labels), and when the gas-price
flag is empty the returned profile's gas price is "0" concatenated with
the stake denomination, whatever the user answers. -/
theorem c8_gas_price_derived (flags : InitFlags) (stakeDenom : String)
    (answers : String → String) (hgp : flags.gasPrice = "") :
    validatorQuestions.map Question.label =
      ["Staking amount", "Commission rate", "Commission max rate",
       "Commission max change rate"] ∧
    ∀ v, askValidatorInfo flags stakeDenom answers = .ok v →
      v.gasPrices = "0" ++ stakeDenom := by
  refine ⟨rfl, ?_⟩
  intro v h
  unfold askValidatorInfo at h
  cases hq : ask answers validatorQuestions with
  | error e => rw [hq] at h; cases h
  | ok as =>
    rw [hq] at h
    cases h
    simp [hgp]

/-- C8 (witness): at `baseFlags` (empty gas-price flag), denomination
"stake" and all-empty user input, the returned profile's gas price is
"0stake". -/
theorem c8_gas_price_witness :
    baseFlags.gasPrice = "" ∧ vDefault.gasPrices = "0" ++ "stake" :=
  ⟨rfl, (c8_gas_price_derived baseFlags "stake" emptyAnswers rfl).2 vDefault (by decide)⟩

/-- A sample coin parser used to instantiate witnesses: the empty string
parses to the empty coin set, "100atom" to one coin, anything else fails. -/
def sampleCoinParse (s : String) : Except GoError (List Coin) :=
  if s = "" then .ok []
  else if s = "100atom" then .ok [⟨"atom", 100⟩]
  else .error (.invalidAmount s)

/-- The campaign record returned by the sample remote environment. -/
def sampleCampaign : Campaign := ⟨"testnet", "", []⟩

/-- A campaign-update environment in which every collaborator succeeds. -/
def cuEnvOk : CUEnv :=
  { parseCoins := sampleCoinParse
    newNetworkBuilder := .ok ()
    network := .ok ()
    updateCampaign := fun _ _ => .ok ()
    fetchCampaign := fun _ => .ok sampleCampaign
    marshal := fun _ => .ok "rendered" }

/-- Like `cuEnvOk`, but constructing the network builder fails. -/
def cuEnvBadBuilder : CUEnv :=
  { cuEnvOk with newNetworkBuilder := .error (.remoteFailure "builder failed") }

/-- Like `cuEnvOk`, but the proposition submission is rejected. -/
def cuEnvSubmitFails : CUEnv :=
  { cuEnvOk with updateCampaign := fun _ _ => .error (.remoteFailure "submit rejected") }

/-- All three update flags left at their empty defaults. -/
def emptyCampaignFlags : CampaignFlags := ⟨"", "", ""⟩

/-- Only the name flag supplied. -/
def nameOnlyFlags : CampaignFlags := ⟨"testnet", "", ""⟩

/-- Empty name and metadata with a malformed total-supply string. -/
def badSupplyFlags : CampaignFlags := ⟨"", "", "notacoin"⟩

/-- C6: when the total-supply flag fails coin parsing, the handler returns
that parse error immediately: the whole trace is the single coin-parse
call, so no submission, campaign fetch or network construction occurs. -/
theorem c6_invalid_amount_fail_fast (env : CUEnv) (flags : CampaignFlags) (arg : String)
    (e : GoError) (hc : env.parseCoins flags.totalSupply = .error e) :
    networkCampaignUpdateHandler env flags arg =
      ([.parseCoinsCall flags.totalSupply], some e) ∧
    (∀ id ps, CUEvent.updateCampaign id ps ∉ (networkCampaignUpdateHandler env flags arg).1) ∧
    (∀ id, CUEvent.fetchCampaign id ∉ (networkCampaignUpdateHandler env flags arg).1) ∧
    CUEvent.networkCall ∉ (networkCampaignUpdateHandler env flags arg).1 := by
  have h : networkCampaignUpdateHandler env flags arg =
      ([.parseCoinsCall flags.totalSupply], some e) := by
    simp [networkCampaignUpdateHandler, run, hc]
  refine ⟨h, ?_, ?_, ?_⟩ <;> simp [h]

/-- C6 (witness): the malformed total-supply string "notacoin" makes the
handler fail with the coin-parse error after the single parse call. -/
theorem c6_invalid_amount_witness :
    cuEnvOk.parseCoins "notacoin" = .error (.invalidAmount "notacoin") ∧
    networkCampaignUpdateHandler cuEnvOk badSupplyFlags "7" =
      ([.parseCoinsCall "notacoin"], some (GoError.invalidAmount "notacoin")) :=
  ⟨by decide,
   (c6_invalid_amount_fail_fast cuEnvOk badSupplyFlags "7"
     (GoError.invalidAmount "notacoin") (by decide)).1⟩

/-- C10: the total-supply string is handed to the coin parser before the
campaign-id argument is parsed, so when both are malformed the returned
error is the coin-parse error and the identifier parser is never reached. -/
theorem c10_coins_parsed_before_id (env : CUEnv) (flags : CampaignFlags) (arg : String)
    (e e2 : GoError)
    (hc : env.parseCoins flags.totalSupply = .error e)
    (hid : ParseID arg = .error e2) :
    (networkCampaignUpdateHandler env flags arg).2 = some e ∧
    ∀ s, CUEvent.parseIDCall s ∉ (networkCampaignUpdateHandler env flags arg).1 := by
  have h : networkCampaignUpdateHandler env flags arg =
      ([.parseCoinsCall flags.totalSupply], some e) := by
    simp [networkCampaignUpdateHandler, run, hc]
  exact ⟨by simp [h], by intro s; simp [h]⟩

/-- C10 (witness): with total-supply "bogus" and campaign-id "abc" — both
malformed — the result is the coin-parse error and no id-parse call occurs. -/
theorem c10_coins_before_id_witness :
    (networkCampaignUpdateHandler cuEnvOk ⟨"", "", "bogus"⟩ "abc").2 =
      some (GoError.invalidAmount "bogus") ∧
    CUEvent.parseIDCall "abc" ∉ (networkCampaignUpdateHandler cuEnvOk ⟨"", "", "bogus"⟩ "abc").1 := by
  have h := c10_coins_parsed_before_id cuEnvOk ⟨"", "", "bogus"⟩ "abc"
    (GoError.invalidAmount "bogus") (GoError.invalidFormat "abc") (by decide) (by decide)
  exact ⟨h.1, h.2 "abc"⟩

/-- C3 (counterexample): with all three fields empty the handler does not
always return the no-fields error — a malformed campaign-id argument ("x")
returns the invalid-format error, and a failing network-builder returns
the builder error, both before the empty-fields check is reached. -/
theorem c3_no_fields_counterexample :
    (networkCampaignUpdateHandler cuEnvOk emptyCampaignFlags "x").2 =
      some (GoError.invalidFormat "x") ∧
    (networkCampaignUpdateHandler cuEnvBadBuilder emptyCampaignFlags "7").2 =
      some (GoError.remoteFailure "builder failed") ∧
    some (GoError.invalidFormat "x") ≠ some GoError.noFieldsProvided ∧
    some (GoError.remoteFailure "builder failed") ≠ some GoError.noFieldsProvided := by
  refine ⟨by decide, by decide, by decide, by decide⟩

/-- C3 (amended): provided the network builder is constructed and the
campaign-id argument parses, an invocation with empty name, empty metadata
and a total-supply parsing to the empty coin set returns the no-fields
error, and no network interaction (submission, fetch, or network
construction) ever occurs. -/
theorem c3_no_fields_amended (env : CUEnv) (flags : CampaignFlags) (arg : String)
    (cid : Nat) (ts : List Coin)
    (hc : env.parseCoins flags.totalSupply = .ok ts) (hts : ts.isEmpty = true)
    (hn : flags.name = "") (hm : flags.metadata = "")
    (hb : env.newNetworkBuilder = .ok ()) (hid : ParseID arg = .ok cid) :
    networkCampaignUpdateHandler env flags arg =
      ([.parseCoinsCall flags.totalSupply, .buildNetwork, .parseIDCall arg],
        some GoError.noFieldsProvided) ∧
    CUEvent.networkCall ∉ (networkCampaignUpdateHandler env flags arg).1 ∧
    (∀ id ps, CUEvent.updateCampaign id ps ∉ (networkCampaignUpdateHandler env flags arg).1) ∧
    (∀ id, CUEvent.fetchCampaign id ∉ (networkCampaignUpdateHandler env flags arg).1) := by
  have h : networkCampaignUpdateHandler env flags arg =
      ([.parseCoinsCall flags.totalSupply, .buildNetwork, .parseIDCall arg],
        some GoError.noFieldsProvided) := by
    simp [networkCampaignUpdateHandler, run, hc, hb, hid, hn, hm, hts]
  refine ⟨h, ?_, ?_, ?_⟩ <;> simp [h]

/-- C3 (witness): at campaign-id "7" with every field empty, the handler
returns the no-fields error after parse/build/parse-id, with no network
interaction. -/
theorem c3_no_fields_witness :
    networkCampaignUpdateHandler cuEnvOk emptyCampaignFlags "7" =
      ([.parseCoinsCall "", .buildNetwork, .parseIDCall "7"],
        some GoError.noFieldsProvided) ∧
    CUEvent.networkCall ∉ (networkCampaignUpdateHandler cuEnvOk emptyCampaignFlags "7").1 := by
  have h := c3_no_fields_amended cuEnvOk emptyCampaignFlags "7" 7 [] (by decide) rfl rfl rfl
    rfl (by decide)
  exact ⟨h.1, h.2.1⟩

/-- C7: once the handler reaches submission, a successful submission is
followed by a re-fetch of the campaign, the marshalled (displayed)
campaign is exactly the re-fetched record and nothing else, and a failed
submission returns the submission error with no campaign fetch at all. -/
theorem c7_refetch_after_submit (env : CUEnv) (flags : CampaignFlags) (arg : String)
    (cid : Nat) (ts : List Coin)
    (hc : env.parseCoins flags.totalSupply = .ok ts)
    (hb : env.newNetworkBuilder = .ok ())
    (hid : ParseID arg = .ok cid)
    (hne : ¬ (flags.name = "" ∧ flags.metadata = "" ∧ ts.isEmpty = true))
    (hnet : env.network = .ok ()) :
    (env.updateCampaign cid (buildProps flags.name flags.metadata ts) = .ok () →
      CUEvent.fetchCampaign cid ∈ (networkCampaignUpdateHandler env flags arg).1 ∧
      ∀ c, env.fetchCampaign cid = .ok c →
        CUEvent.marshal c ∈ (networkCampaignUpdateHandler env flags arg).1 ∧
        ∀ c2, CUEvent.marshal c2 ∈ (networkCampaignUpdateHandler env flags arg).1 → c2 = c) ∧
    (∀ e, env.updateCampaign cid (buildProps flags.name flags.metadata ts) = .error e →
      (networkCampaignUpdateHandler env flags arg).2 = some e ∧
      ∀ id, CUEvent.fetchCampaign id ∉ (networkCampaignUpdateHandler env flags arg).1) := by
  constructor
  · intro hu
    cases hf : env.fetchCampaign cid with
    | error e =>
      have h : networkCampaignUpdateHandler env flags arg =
          ([.parseCoinsCall flags.totalSupply, .buildNetwork, .parseIDCall arg, .networkCall,
            .updateCampaign cid (buildProps flags.name flags.metadata ts),
            .fetchCampaign cid], some e) := by
        simp [networkCampaignUpdateHandler, run, hc, hb, hid, hnet, hu, hf]
        intro h1 h2 h3
        exact hne ⟨h1, h2, by simp [h3]⟩
      refine ⟨by simp [h], ?_⟩
      intro c hcc
      cases hcc
    | ok c0 =>
      cases hmm : env.marshal c0 with
      | error e =>
        have h : networkCampaignUpdateHandler env flags arg =
            ([.parseCoinsCall flags.totalSupply, .buildNetwork, .parseIDCall arg, .networkCall,
              .updateCampaign cid (buildProps flags.name flags.metadata ts),
              .fetchCampaign cid, .marshal c0], some e) := by
          simp [networkCampaignUpdateHandler, run, hc, hb, hid, hnet, hu, hf, hmm]
          intro h1 h2 h3
          exact hne ⟨h1, h2, by simp [h3]⟩
        refine ⟨by simp [h], ?_⟩
        intro c hcc
        cases hcc
        refine ⟨by simp [h], ?_⟩
        intro c2 hc2
        simp [h] at hc2
        exact hc2
      | ok info =>
        have h : networkCampaignUpdateHandler env flags arg =
            ([.parseCoinsCall flags.totalSupply, .buildNetwork, .parseIDCall arg, .networkCall,
              .updateCampaign cid (buildProps flags.name flags.metadata ts),
              .fetchCampaign cid, .marshal c0], none) := by
          simp [networkCampaignUpdateHandler, run, hc, hb, hid, hnet, hu, hf, hmm]
          intro h1 h2 h3
          exact hne ⟨h1, h2, by simp [h3]⟩
        refine ⟨by simp [h], ?_⟩
        intro c hcc
        cases hcc
        refine ⟨by simp [h], ?_⟩
        intro c2 hc2
        simp [h] at hc2
        exact hc2
  · intro e hu
    have h : networkCampaignUpdateHandler env flags arg =
        ([.parseCoinsCall flags.totalSupply, .buildNetwork, .parseIDCall arg, .networkCall,
          .updateCampaign cid (buildProps flags.name flags.metadata ts)], some e) := by
      simp [networkCampaignUpdateHandler, run, hc, hb, hid, hnet, hu]
      intro h1 h2 h3
      exact hne ⟨h1, h2, by simp [h3]⟩
    refine ⟨by simp [h], ?_⟩
    intro id
    simp [h]

/-- C7 (witness): at campaign-id "7" with only the name supplied and a
successful submission, the handler fetches campaign 7 and marshals exactly
the fetched record; in the submission-failure environment no fetch occurs. -/
theorem c7_refetch_witness :
    (CUEvent.fetchCampaign 7 ∈ (networkCampaignUpdateHandler cuEnvOk nameOnlyFlags "7").1 ∧
     CUEvent.marshal sampleCampaign ∈
       (networkCampaignUpdateHandler cuEnvOk nameOnlyFlags "7").1) ∧
    CUEvent.fetchCampaign 7 ∉ (networkCampaignUpdateHandler cuEnvSubmitFails nameOnlyFlags "7").1 := by
  constructor
  · have h := c7_refetch_after_submit cuEnvOk nameOnlyFlags "7" 7 [] rfl rfl (by decide)
      (by decide) rfl
    have h2 := h.1 rfl
    exact ⟨h2.1, (h2.2 sampleCampaign rfl).1⟩
  · have h := c7_refetch_after_submit cuEnvSubmitFails nameOnlyFlags "7" 7 [] rfl rfl
      (by decide) (by decide) rfl
    exact (h.2 (GoError.remoteFailure "submit rejected") rfl).2 7

/-- A chain-init environment with an existing workspace whose overwrite
prompt fails (the user declines); every other collaborator succeeds. -/
def ciEnvDecline : CIEnv :=
  { newNetworkBuilder := .ok ()
    getByName := fun _ => .ok ()
    isChainHomeExist := fun _ => .ok ("/home/user/spn/9", true)
    promptRun := .error (.promptFailure "abort")
    network := .ok ()
    chainLaunch := fun id => .ok ⟨id⟩
    mkChain := fun _ => .ok ()
    chainInit := .ok ()
    genesisPath := .ok "config/genesis.json"
    parseGenesis := fun _ => .ok ⟨"stake"⟩
    answers := emptyAnswers
    initAccount := fun _ _ => .ok "gentx.json" }

/-- Like `ciEnvDecline`, but no prior workspace exists: the prompt is never
reached and the run succeeds end to end. -/
def ciEnvFresh : CIEnv :=
  { ciEnvDecline with
      isChainHomeExist := fun _ => .ok ("/home/user/spn/42", false)
      promptRun := .ok "y" }

/-- Like `ciEnvDecline`, but the prompt fails with a terminal I/O error
rather than an explicit decline. -/
def ciEnvPromptIO : CIEnv :=
  { ciEnvDecline with promptRun := .error (.promptFailure "tty: input/output error") }

theorem decline_trace (env : CIEnv) (flags : InitFlags) (arg : String) (lid : Nat)
    (home : String) (e : GoError)
    (h1 : env.newNetworkBuilder = .ok ())
    (h2 : ParseID arg = .ok lid)
    (h3 : env.getByName flags.validatorAccount = .ok ())
    (h4 : env.isChainHomeExist lid = .ok (home, true))
    (h5 : flags.yes = false)
    (h6 : env.promptRun = .error e) :
    networkChainInitHandler env flags arg =
      ([.buildNetwork, .parseLaunchID arg, .getAccount flags.validatorAccount,
        .checkHome lid, .promptOverwrite, .printDecline], none) := by
  simp [networkChainInitHandler, run, h1, h2, h3, h4, h5, h6]

/-- C2 (counterexample): the declined run returns the very same
caller-visible value (nil) as a fully successful run, so the declined
outcome is not distinguishable from success at the handler's result. -/
theorem c2_decline_counterexample :
    (networkChainInitHandler ciEnvDecline baseFlags "9").2 = none ∧
    (networkChainInitHandler ciEnvFresh baseFlags "42").2 = none ∧
    (networkChainInitHandler ciEnvDecline baseFlags "9").2 =
      (networkChainInitHandler ciEnvFresh baseFlags "42").2 := by
  refine ⟨by decide, by decide, by decide⟩

/-- C2 (amended): declining the overwrite confirmation terminates the run
with a nil result after printing the decline message — a non-error outcome
distinguishable from every failure outcome, but identical to the success
outcome in the caller-visible return value. -/
theorem c2_decline_nil_amended (env : CIEnv) (flags : InitFlags) (arg : String)
    (lid : Nat) (home : String) (e : GoError)
    (h1 : env.newNetworkBuilder = .ok ())
    (h2 : ParseID arg = .ok lid)
    (h3 : env.getByName flags.validatorAccount = .ok ())
    (h4 : env.isChainHomeExist lid = .ok (home, true))
    (h5 : flags.yes = false)
    (h6 : env.promptRun = .error e) :
    (networkChainInitHandler env flags arg).2 = none ∧
    CIEvent.printDecline ∈ (networkChainInitHandler env flags arg).1 ∧
    ∀ e2, (networkChainInitHandler env flags arg).2 ≠ some e2 := by
  have h := decline_trace env flags arg lid home e h1 h2 h3 h4 h5 h6
  refine ⟨by simp [h], by simp [h], ?_⟩
  intro e2
  simp [h]

/-- C2 (witness): at launch-id "9" with an existing workspace and a failing
prompt, the run returns nil having printed the decline message. -/
theorem c2_decline_nil_witness :
    (networkChainInitHandler ciEnvDecline baseFlags "9").2 = none ∧
    CIEvent.printDecline ∈ (networkChainInitHandler ciEnvDecline baseFlags "9").1 := by
  have h := c2_decline_nil_amended ciEnvDecline baseFlags "9" 9 "/home/user/spn/9"
    (GoError.promptFailure "abort") rfl (by decide) rfl rfl rfl rfl
  exact ⟨h.1, h.2.1⟩

/-- C5: when a prior workspace exists, the yes-flag is unset and the
overwrite prompt is declined, the chain-launch record is never fetched and
no filesystem-mutating step (chain initialization or gentx generation)
runs. -/
theorem c5_decline_no_fetch_no_mutation (env : CIEnv) (flags : InitFlags) (arg : String)
    (lid : Nat) (home : String) (e : GoError)
    (h1 : env.newNetworkBuilder = .ok ())
    (h2 : ParseID arg = .ok lid)
    (h3 : env.getByName flags.validatorAccount = .ok ())
    (h4 : env.isChainHomeExist lid = .ok (home, true))
    (h5 : flags.yes = false)
    (h6 : env.promptRun = .error e) :
    (∀ id, CIEvent.fetchChainLaunch id ∉ (networkChainInitHandler env flags arg).1) ∧
    CIEvent.chainInitCall ∉ (networkChainInitHandler env flags arg).1 ∧
    (∀ v a, CIEvent.initAccountCall v a ∉ (networkChainInitHandler env flags arg).1) := by
  have h := decline_trace env flags arg lid home e h1 h2 h3 h4 h5 h6
  exact ⟨fun id => by simp [h], by simp [h], fun v a => by simp [h]⟩

/-- C5 (witness): at launch-id "9" the declined run performs no launch
fetch, no chain initialization and no gentx generation. -/
theorem c5_decline_witness :
    CIEvent.fetchChainLaunch 9 ∉ (networkChainInitHandler ciEnvDecline baseFlags "9").1 ∧
    CIEvent.chainInitCall ∉ (networkChainInitHandler ciEnvDecline baseFlags "9").1 ∧
    CIEvent.initAccountCall vDefault "alice" ∉
      (networkChainInitHandler ciEnvDecline baseFlags "9").1 := by
  have h := c5_decline_no_fetch_no_mutation ciEnvDecline baseFlags "9" 9 "/home/user/spn/9"
    (GoError.promptFailure "abort") rfl (by decide) rfl rfl rfl rfl
  exact ⟨h.1 9, h.2.1, h.2.2 vDefault "alice"⟩

/-- C9: any error from running the overwrite prompt — an explicit decline
and a terminal I/O failure alike — makes the handler terminate with a nil
result; the prompt's error is never propagated to the caller. -/
theorem c9_prompt_error_returns_nil (env : CIEnv) (flags : InitFlags) (arg : String)
    (lid : Nat) (home : String) (e : GoError)
    (h1 : env.newNetworkBuilder = .ok ())
    (h2 : ParseID arg = .ok lid)
    (h3 : env.getByName flags.validatorAccount = .ok ())
    (h4 : env.isChainHomeExist lid = .ok (home, true))
    (h5 : flags.yes = false)
    (h6 : env.promptRun = .error e) :
    (networkChainInitHandler env flags arg).2 = none ∧
    (networkChainInitHandler env flags arg).2 ≠ some e := by
  have h := decline_trace env flags arg lid home e h1 h2 h3 h4 h5 h6
  exact ⟨by simp [h], by simp [h]⟩

/-- C9 (witness): with a prompt that fails with a terminal I/O error (not a
decline) the handler still returns nil. -/
theorem c9_prompt_error_witness :
    ciEnvPromptIO.promptRun = .error (.promptFailure "tty: input/output error") ∧
    (networkChainInitHandler ciEnvPromptIO baseFlags "9").2 = none :=
  ⟨by decide,
   (c9_prompt_error_returns_nil ciEnvPromptIO baseFlags "9" 9 "/home/user/spn/9"
     (GoError.promptFailure "tty: input/output error") rfl (by decide) rfl rfl rfl rfl).1⟩
